import Mathlib

/-!
Verification of the NinjaCharacter movement component (Morph repository).

This file gives a shallow embedding, over the real numbers, of the parts of
`NinjaCharacterMovementComponent.cpp` that the checked claims are about:
gravity direction resolution, the zero-gravity guards of the falling and
swimming integrators, the jump-apex substep of the falling integrator,
walkability classification, floor-height adjustment, step-up traversal,
the server-side move validation, the client-side correction handling,
horizontal ground-velocity maintenance and immersion depth.

External collaborators (the collision backend's sweeps and traces, the
engine's movement-base utilities, sibling methods whose results are consumed
as plain values) are passed in as oracle parameters, mirroring the spec's
"external interfaces" section.  Engine vector/math primitives
(`FVector`, `FMath`) are translated from their Unreal Engine definitions
since the code calls into them directly.
-/

open Classical

noncomputable section

/-- Three-component vector, the embedding of `FVector`. -/
structure Vec3 where
  x : ℝ
  y : ℝ
  z : ℝ

namespace Vec3

theorem ext_iff' (a b : Vec3) : a = b ↔ a.x = b.x ∧ a.y = b.y ∧ a.z = b.z := by
  constructor
  · intro h; cases h; exact ⟨rfl, rfl, rfl⟩
  · intro ⟨h1, h2, h3⟩; cases a; cases b; simp_all

instance : Zero Vec3 := ⟨⟨0, 0, 0⟩⟩

theorem zero_def : (0 : Vec3) = ⟨0, 0, 0⟩ := rfl

instance : Add Vec3 := ⟨fun a b => ⟨a.x + b.x, a.y + b.y, a.z + b.z⟩⟩
instance : Sub Vec3 := ⟨fun a b => ⟨a.x - b.x, a.y - b.y, a.z - b.z⟩⟩
instance : Neg Vec3 := ⟨fun a => ⟨-a.x, -a.y, -a.z⟩⟩
instance : SMul ℝ Vec3 := ⟨fun c a => ⟨c * a.x, c * a.y, c * a.z⟩⟩

theorem add_def (a b : Vec3) : a + b = ⟨a.x + b.x, a.y + b.y, a.z + b.z⟩ := rfl
theorem sub_def (a b : Vec3) : a - b = ⟨a.x - b.x, a.y - b.y, a.z - b.z⟩ := rfl
theorem neg_def (a : Vec3) : -a = ⟨-a.x, -a.y, -a.z⟩ := rfl
theorem smul_def (c : ℝ) (a : Vec3) : c • a = ⟨c * a.x, c * a.y, c * a.z⟩ := rfl

/-- `FVector::operator|` (dot product). -/
def dot (a b : Vec3) : ℝ := a.x * b.x + a.y * b.y + a.z * b.z

/-- `FVector::SizeSquared`. -/
def sizeSquared (v : Vec3) : ℝ := v.x * v.x + v.y * v.y + v.z * v.z

/-- `FVector::Size`. -/
def size (v : Vec3) : ℝ := Real.sqrt (sizeSquared v)

end Vec3

open Vec3

/- Engine numeric constants (Unreal Engine definitions used by the code). -/

/-- `SMALL_NUMBER`. -/
def SMALL_NUMBER : ℝ := 1e-8

/-- `KINDA_SMALL_NUMBER`. -/
def KINDA_SMALL_NUMBER : ℝ := 1e-4

/-- `MIN_TICK_TIME` of `UCharacterMovementComponent`. -/
def MIN_TICK_TIME : ℝ := 1e-6

/-- `MIN_FLOOR_DIST` of `UCharacterMovementComponent`. -/
def MIN_FLOOR_DIST : ℝ := 1.9

/-- `MAX_FLOOR_DIST` of `UCharacterMovementComponent`. -/
def MAX_FLOOR_DIST : ℝ := 2.4

/-- `SWEEP_EDGE_REJECT_DISTANCE` of `UCharacterMovementComponent`. -/
def SWEEP_EDGE_REJECT_DISTANCE : ℝ := 0.15

/-- `MAX_STEP_SIDE_Z` (NinjaCharacterMovementComponent.cpp line 39). -/
def MAX_STEP_SIDE_Z : ℝ := 0.08

/-- `FMath::Clamp` for reals (`X < Min ? Min : (X < Max ? X : Max)`,
which for `Min ≤ Max` is the usual clamp). -/
def fclamp (x lo hi : ℝ) : ℝ := max lo (min x hi)

/-- `FVector::GetSafeNormal` with the default `SMALL_NUMBER` tolerance:
the vector scaled to unit length, or the zero vector when the squared
length falls below the tolerance. -/
def getSafeNormal (v : Vec3) : Vec3 :=
  if sizeSquared v = 1 then v
  else if sizeSquared v < SMALL_NUMBER then 0
  else (1 / Real.sqrt (sizeSquared v)) • v

/-- `FVector::VectorPlaneProject` (assumes a normalized plane normal). -/
def vectorPlaneProject (v planeNormal : Vec3) : Vec3 :=
  v - dot v planeNormal • planeNormal

/-- `FMath::ClosestPointOnInfiniteLine`. -/
def closestPointOnInfiniteLine (lineStart lineEnd point : Vec3) : Vec3 :=
  let a := dot (lineStart - point) (lineEnd - lineStart)
  let b := sizeSquared (lineEnd - lineStart)
  if b < SMALL_NUMBER then lineStart
  else lineStart + (-a / b) • (lineEnd - lineStart)

/-- `FMath::ClosestPointOnLine` (parameter clamped to the segment). -/
def closestPointOnLine (lineStart lineEnd point : Vec3) : Vec3 :=
  let a := dot (lineStart - point) (lineEnd - lineStart)
  let b := sizeSquared (lineEnd - lineStart)
  lineStart + fclamp (-a / b) 0 1 • (lineEnd - lineStart)

/-- `FVector::PointPlaneProject` (assumes a normalized plane normal). -/
def pointPlaneProject (point planeBase planeNormal : Vec3) : Vec3 :=
  point - dot (point - planeBase) planeNormal • planeNormal

/-- `FBox::GetClosestPointTo`: component-wise clamp into the box. -/
def boxClosestPointTo (boxMin boxMax point : Vec3) : Vec3 :=
  ⟨fclamp point.x boxMin.x boxMax.x,
   fclamp point.y boxMin.y boxMax.y,
   fclamp point.z boxMin.z boxMax.z⟩

/-- `FMath::IsNearlyZero` with the default `SMALL_NUMBER` tolerance. -/
def isNearlyZero (x : ℝ) : Prop := |x| ≤ SMALL_NUMBER

/-! ## C1: gravity direction (`GetGravityDirection`, lines 4683-5064)

The modes that re-sample a reference actor (`Point`, `Spline`,
`SplineTangent`, `SplinePlane`, `Box`, `Collision`) write the sampled data
into `GravityVectorA`/`GravityVectorB` before using them; the sampling is an
external query, so the state below carries the post-sampling values of the
two gravity vectors and the remaining computation is translated verbatim. -/

/-- `ENinjaGravityDirectionMode` (NinjaTypes.h). -/
inductive NinjaGravityDirectionMode
  | Fixed | SplineTangent | Point | Line | Segment | Spline | Plane
  | SplinePlane | Box | Collision

/-- The inputs of `GetGravityDirection`: gravity configuration (after any
reference-actor re-sampling), agent location, the engine world gravity
(`UPawnMovementComponent::GetGravityZ`) and the data-validity flag. -/
structure GravityState where
  gravityDirectionMode : NinjaGravityDirectionMode
  gravityVectorA : Vec3
  gravityVectorB : Vec3
  gravityScale : ℝ
  componentLocation : Vec3
  worldGravityZ : ℝ
  hasValidData : Bool

/-- `(GravityScale > 0.0f) ? 1.0f : -1.0f`. -/
def scaleSign (scale : ℝ) : ℝ := if scale > 0 then 1 else -1

/-- `((UPawnMovementComponent::GetGravityZ() > 0.0f) ? 1.0f : -1.0f)`. -/
def worldGravitySign (gz : ℝ) : ℝ := if gz > 0 then 1 else -1

/-- Normalize a mode-resolved offset the way every non-fixed case of the
`GravityScale != 0` branch does: keep an exactly-zero offset, otherwise
safe-normalize and apply the sign of the gravity scale. -/
def resolveScaled (scale : ℝ) (d : Vec3) : Vec3 :=
  if d = 0 then d else scaleSign scale • getSafeNormal d

/-- The `switch` of the `GravityScale != 0.0f` branch of
`GetGravityDirection`. -/
def gravityDirSwitchScaled (s : GravityState) : Vec3 :=
  match s.gravityDirectionMode with
  | .Fixed => scaleSign s.gravityScale • s.gravityVectorA
  | .SplineTangent => scaleSign s.gravityScale • s.gravityVectorA
  | .Point => resolveScaled s.gravityScale (s.gravityVectorA - s.componentLocation)
  | .Line => resolveScaled s.gravityScale
      (closestPointOnInfiniteLine s.gravityVectorA s.gravityVectorB s.componentLocation -
        s.componentLocation)
  | .Segment => resolveScaled s.gravityScale
      (closestPointOnLine s.gravityVectorA s.gravityVectorB s.componentLocation -
        s.componentLocation)
  | .Spline => resolveScaled s.gravityScale (s.gravityVectorA - s.componentLocation)
  | .Plane => resolveScaled s.gravityScale
      (pointPlaneProject s.componentLocation s.gravityVectorA s.gravityVectorB -
        s.componentLocation)
  | .SplinePlane => resolveScaled s.gravityScale (s.gravityVectorA - s.componentLocation)
  | .Box => resolveScaled s.gravityScale
      (boxClosestPointTo (s.gravityVectorA - s.gravityVectorB)
        (s.gravityVectorA + s.gravityVectorB) s.componentLocation - s.componentLocation)
  | .Collision => resolveScaled s.gravityScale (s.gravityVectorA - s.componentLocation)

/-- Normalize a mode-resolved offset the way the `GravityScale == 0.0f`,
`bAvoidZeroGravity` branch does (no sign adjustment). -/
def resolveUnscaled (d : Vec3) : Vec3 :=
  if d = 0 then d else getSafeNormal d

/-- The `switch` of the `GravityScale == 0.0f && bAvoidZeroGravity` branch of
`GetGravityDirection`. -/
def gravityDirSwitchUnscaled (s : GravityState) : Vec3 :=
  match s.gravityDirectionMode with
  | .Fixed => s.gravityVectorA
  | .SplineTangent => s.gravityVectorA
  | .Point => resolveUnscaled (s.gravityVectorA - s.componentLocation)
  | .Line => resolveUnscaled
      (closestPointOnInfiniteLine s.gravityVectorA s.gravityVectorB s.componentLocation -
        s.componentLocation)
  | .Segment => resolveUnscaled
      (closestPointOnLine s.gravityVectorA s.gravityVectorB s.componentLocation -
        s.componentLocation)
  | .Spline => resolveUnscaled (s.gravityVectorA - s.componentLocation)
  | .Plane => resolveUnscaled
      (pointPlaneProject s.componentLocation s.gravityVectorA s.gravityVectorB -
        s.componentLocation)
  | .SplinePlane => resolveUnscaled (s.gravityVectorA - s.componentLocation)
  | .Box => resolveUnscaled
      (boxClosestPointTo (s.gravityVectorA - s.gravityVectorB)
        (s.gravityVectorA + s.gravityVectorB) s.componentLocation - s.componentLocation)
  | .Collision => resolveUnscaled (s.gravityVectorA - s.componentLocation)

/-- `UNinjaCharacterMovementComponent::GetGravityDirection`. -/
def getGravityDirection (s : GravityState) (bAvoidZeroGravity : Bool) : Vec3 :=
  if s.hasValidData = false then ⟨0, 0, -1⟩
  else if s.gravityScale ≠ 0 then
    (if bAvoidZeroGravity = true ∧ gravityDirSwitchScaled s = 0 then
      ⟨0, 0, worldGravitySign s.worldGravityZ * scaleSign s.gravityScale⟩
    else gravityDirSwitchScaled s)
  else if bAvoidZeroGravity = true then
    (if gravityDirSwitchUnscaled s = 0 then ⟨0, 0, worldGravitySign s.worldGravityZ⟩
    else gravityDirSwitchUnscaled s)
  else 0

theorem scaleSign_ne_zero (scale : ℝ) : scaleSign scale ≠ 0 := by
  unfold scaleSign; split <;> norm_num

theorem worldGravitySign_ne_zero (gz : ℝ) : worldGravitySign gz ≠ 0 := by
  unfold worldGravitySign; split <;> norm_num

theorem ne_zero_of_z_ne (v : Vec3) (h : v.z ≠ 0) : v ≠ 0 := by
  intro he; apply h; rw [he]; rfl

/-- C1. With `bAvoidZeroGravity = true`, `GetGravityDirection` never returns
the zero vector, in any gravity mode and at any agent position; when the raw
mode-resolved direction is degenerate (zero), the result is the world-down
fallback `(0, 0, ±1)` whose sign follows the sign of the engine gravity and,
when `GravityScale` is non-zero, also the sign of `GravityScale`. -/
theorem getGravityDirection_avoidZero_spec (s : GravityState) :
    getGravityDirection s true ≠ 0 ∧
    (s.hasValidData = true → s.gravityScale ≠ 0 → gravityDirSwitchScaled s = 0 →
      getGravityDirection s true =
        ⟨0, 0, worldGravitySign s.worldGravityZ * scaleSign s.gravityScale⟩) ∧
    (s.hasValidData = true → s.gravityScale = 0 → gravityDirSwitchUnscaled s = 0 →
      getGravityDirection s true = ⟨0, 0, worldGravitySign s.worldGravityZ⟩) := by
  refine ⟨?_, ?_, ?_⟩
  · unfold getGravityDirection
    split
    · exact ne_zero_of_z_ne _ (by norm_num)
    · split
      · split
        · exact ne_zero_of_z_ne _
            (mul_ne_zero (worldGravitySign_ne_zero _) (scaleSign_ne_zero _))
        · rename_i hcond
          exact fun h => hcond ⟨rfl, h⟩
      · split
        · split
          · exact ne_zero_of_z_ne _ (worldGravitySign_ne_zero _)
          · rename_i hne
            exact hne
        · rename_i hfalse
          exact absurd rfl hfalse
  · intro hvalid hscale hzero
    unfold getGravityDirection
    rw [if_neg (show ¬s.hasValidData = false by simp [hvalid]),
      if_pos hscale, if_pos ⟨rfl, hzero⟩]
  · intro hvalid hscale hzero
    unfold getGravityDirection
    rw [if_neg (show ¬s.hasValidData = false by simp [hvalid]),
      if_neg (not_not_intro hscale), if_pos rfl, if_pos hzero]

/-- A degenerate configuration: point-gravity with the gravity point exactly
at the agent's location, positive scale, engine gravity pulling down. -/
def gravityStateC1 : GravityState :=
  { gravityDirectionMode := .Point
    gravityVectorA := ⟨3, 4, 5⟩
    gravityVectorB := 0
    gravityScale := 2
    componentLocation := ⟨3, 4, 5⟩
    worldGravityZ := -980
    hasValidData := true }

/-- Witness for C1: at the degenerate point-gravity configuration the result
is exactly the world-down fallback `(0, 0, -1)`, and it is non-zero. -/
theorem getGravityDirection_avoidZero_spec_witness :
    getGravityDirection gravityStateC1 true = ⟨0, 0, -1⟩ ∧
    getGravityDirection gravityStateC1 true ≠ 0 := by
  have hraw : gravityDirSwitchScaled gravityStateC1 = 0 := by
    show resolveScaled 2 (Vec3.mk 3 4 5 - Vec3.mk 3 4 5) = 0
    have h0 : Vec3.mk 3 4 5 - Vec3.mk 3 4 5 = 0 := by
      rw [sub_def, zero_def]; norm_num
    rw [h0]
    unfold resolveScaled
    rw [if_pos rfl]
  have hmain := getGravityDirection_avoidZero_spec gravityStateC1
  refine ⟨?_, hmain.1⟩
  have hs2 : gravityStateC1.gravityScale = 2 := rfl
  have hgz : gravityStateC1.worldGravityZ = -980 := rfl
  have := hmain.2.1 rfl (by rw [hs2]; norm_num) hraw
  rw [this]
  have h1 : worldGravitySign gravityStateC1.worldGravityZ = -1 := by
    unfold worldGravitySign; rw [hgz, if_neg (by norm_num)]
  have h2 : scaleSign gravityStateC1.gravityScale = 1 := by
    unfold scaleSign; rw [hs2, if_pos (by norm_num)]
  rw [h1, h2]; norm_num

/-! ## C8: zero-gravity guards of the falling and swimming integrators
(`PhysFalling` lines 1703-1720, `PhysSwimming` lines 1467-1481)

Both integrators open with the same two guards: a tick below `MIN_TICK_TIME`
is skipped outright, and a zero resolved gravity direction zeroes the
acceleration and the velocity and returns before any movement code runs.
The guard prefix is embedded as a function that returns `some` of the state
the method leaves behind when it returns early, and `none` when execution
falls through to the integration body. -/

/-- The movement state touched by the early-out guards. -/
structure PhysState where
  location : Vec3
  velocity : Vec3
  acceleration : Vec3

/-- The guard prefix of `UNinjaCharacterMovementComponent::PhysFalling`. -/
def physFallingGravityGuard (deltaTime : ℝ) (gravityDir : Vec3) (s : PhysState) :
    Option PhysState :=
  if deltaTime < MIN_TICK_TIME then some s
  else if gravityDir = 0 then some { s with acceleration := 0, velocity := 0 }
  else none

/-- The guard prefix of `UNinjaCharacterMovementComponent::PhysSwimming`
(textually duplicated in the source). -/
def physSwimmingGravityGuard (deltaTime : ℝ) (gravityDir : Vec3) (s : PhysState) :
    Option PhysState :=
  if deltaTime < MIN_TICK_TIME then some s
  else if gravityDir = 0 then some { s with acceleration := 0, velocity := 0 }
  else none

/-- C8. On any falling or swimming tick of at least the minimum tick time in
which the resolved gravity direction is the zero vector, both integrators
set acceleration and velocity to exactly zero and return early with the
agent's location unchanged. -/
theorem physFallingSwimming_zeroGravity_abort (deltaTime : ℝ) (gravityDir : Vec3)
    (s : PhysState) (hdt : MIN_TICK_TIME ≤ deltaTime) (hg : gravityDir = 0) :
    physFallingGravityGuard deltaTime gravityDir s =
      some { location := s.location, velocity := 0, acceleration := 0 } ∧
    physSwimmingGravityGuard deltaTime gravityDir s =
      some { location := s.location, velocity := 0, acceleration := 0 } := by
  have hnlt : ¬deltaTime < MIN_TICK_TIME := not_lt.mpr hdt
  constructor
  · unfold physFallingGravityGuard
    rw [if_neg hnlt, if_pos hg]
  · unfold physSwimmingGravityGuard
    rw [if_neg hnlt, if_pos hg]

/-- Witness for C8: a concrete 10 ms tick with zero gravity direction. -/
theorem physFallingSwimming_zeroGravity_abort_witness :
    physFallingGravityGuard (1/100) 0 ⟨⟨5, 6, 7⟩, ⟨1, 2, 3⟩, ⟨4, 0, 4⟩⟩ =
      some ⟨⟨5, 6, 7⟩, 0, 0⟩ ∧
    physSwimmingGravityGuard (1/100) 0 ⟨⟨5, 6, 7⟩, ⟨1, 2, 3⟩, ⟨4, 0, 4⟩⟩ =
      some ⟨⟨5, 6, 7⟩, 0, 0⟩ :=
  physFallingSwimming_zeroGravity_abort (1/100) 0 ⟨⟨5, 6, 7⟩, ⟨1, 2, 3⟩, ⟨4, 0, 4⟩⟩
    (by norm_num [MIN_TICK_TIME]) rfl

/-! ## C10: immersion depth (`ImmersionDepth`, lines 1227-1258)

The capsule half-height, the buoyancy, the presence of the water volume's
brush component and the line-trace hit time are the external inputs of the
method; the trace result defaults to `Hit.Time == 1.0` when the brush is
absent. -/

/-- `UNinjaCharacterMovementComponent::ImmersionDepth`.  `hitTime` is the
`FHitResult::Time` produced by `LineTraceComponent` against the volume brush
(initialized to `1.0` and only written when the brush exists). -/
def immersionDepth (hasCharacterOwner isWaterVolume : Bool)
    (collisionHalfHeight buoyancy : ℝ) (brushPresent : Bool) (hitTime : ℝ) : ℝ :=
  if hasCharacterOwner = true ∧ isWaterVolume = true then
    if collisionHalfHeight = 0 ∨ buoyancy = 0 then 1
    else
      (if (if brushPresent = true then hitTime else 1) = 1 then 1
       else 1 - (if brushPresent = true then hitTime else 1))
  else 0

/-- C10. `ImmersionDepth` always lands in `[0, 1]` (the trace's hit time
being a fraction in `[0, 1]`); it returns `0` whenever the current physics
volume is not a water volume, and returns exactly `1` when (in water) the
collision half-height or the buoyancy is zero, or when the trace against the
volume brush does not hit (`Hit.Time == 1`, including a missing brush). -/
theorem immersionDepth_spec (hasOwner isWater : Bool) (halfHeight buoyancy : ℝ)
    (brushPresent : Bool) (hitTime : ℝ)
    (h0 : 0 ≤ hitTime) (h1 : hitTime ≤ 1) :
    (0 ≤ immersionDepth hasOwner isWater halfHeight buoyancy brushPresent hitTime ∧
      immersionDepth hasOwner isWater halfHeight buoyancy brushPresent hitTime ≤ 1) ∧
    (isWater = false →
      immersionDepth hasOwner isWater halfHeight buoyancy brushPresent hitTime = 0) ∧
    (hasOwner = true → isWater = true → (halfHeight = 0 ∨ buoyancy = 0) →
      immersionDepth hasOwner isWater halfHeight buoyancy brushPresent hitTime = 1) ∧
    (hasOwner = true → isWater = true → (brushPresent = false ∨ hitTime = 1) →
      immersionDepth hasOwner isWater halfHeight buoyancy brushPresent hitTime = 1) := by
  refine ⟨?_, ?_, ?_, ?_⟩
  · unfold immersionDepth
    split
    · split
      · norm_num
      · split
        · split
          · norm_num
          · constructor <;> linarith
        · norm_num
    · norm_num
  · intro hw
    unfold immersionDepth
    rw [if_neg (by simp [hw])]
  · intro ho hw hz
    unfold immersionDepth
    rw [if_pos ⟨ho, hw⟩, if_pos hz]
  · intro ho hw hb
    unfold immersionDepth
    rw [if_pos ⟨ho, hw⟩]
    split
    · rfl
    · rw [if_pos]
      rcases hb with hb | hb
      · rw [if_neg (by simp [hb])]
      · split <;> [exact hb; rfl]

/-- Witness for C10: in-water agent with zero buoyancy gets depth `1`, and
a miss (`Hit.Time = 1`) with non-degenerate parameters also gets depth `1`;
both values lie in `[0, 1]`. -/
theorem immersionDepth_spec_witness :
    immersionDepth true true 88 0 true (1/2) = 1 ∧
    immersionDepth true true 88 5 true 1 = 1 ∧
    (0 ≤ immersionDepth true true 88 5 true (1/4) ∧
      immersionDepth true true 88 5 true (1/4) ≤ 1) := by
  refine ⟨?_, ?_, ?_⟩
  · exact (immersionDepth_spec true true 88 0 true (1/2) (by norm_num)
      (by norm_num)).2.2.1 rfl rfl (Or.inr rfl)
  · exact (immersionDepth_spec true true 88 5 true 1 (by norm_num)
      (by norm_num)).2.2.2 rfl rfl (Or.inr rfl)
  · exact (immersionDepth_spec true true 88 5 true (1/4) (by norm_num)
      (by norm_num)).1

/-! ## C9: horizontal ground velocity
(`MaintainHorizontalGroundVelocity`, lines 2277-2289) -/

/-- `UNinjaCharacterMovementComponent::MaintainHorizontalGroundVelocity`:
either drop the vertical velocity component, or project the velocity onto
the ground plane and rescale it to its original magnitude. -/
def maintainHorizontalGroundVelocity (velocity capsuleUp : Vec3)
    (bMaintainHorizontal : Bool) : Vec3 :=
  if bMaintainHorizontal = true then vectorPlaneProject velocity capsuleUp
  else size velocity • getSafeNormal (vectorPlaneProject velocity capsuleUp)

theorem dot_zero_left (b : Vec3) : dot 0 b = 0 := by
  unfold dot; rw [zero_def]; dsimp only; ring

theorem dot_smul_left (c : ℝ) (a b : Vec3) : dot (c • a) b = c * dot a b := by
  unfold dot; rw [smul_def]; dsimp only; ring

theorem dot_planeProject (v n : Vec3) (h : sizeSquared n = 1) :
    dot (vectorPlaneProject v n) n = 0 := by
  unfold sizeSquared at h
  unfold vectorPlaneProject dot
  rw [sub_def, smul_def]
  dsimp only
  linear_combination (-(v.x * n.x + v.y * n.y + v.z * n.z)) * h

theorem dot_getSafeNormal_zero (w n : Vec3) (h : dot w n = 0) :
    dot (getSafeNormal w) n = 0 := by
  unfold getSafeNormal
  split
  · exact h
  · split
    · exact dot_zero_left n
    · rw [dot_smul_left, h, mul_zero]

theorem size_nonneg' (v : Vec3) : 0 ≤ size v := Real.sqrt_nonneg _

theorem sizeSquared_smul (c : ℝ) (v : Vec3) :
    sizeSquared (c • v) = c ^ 2 * sizeSquared v := by
  unfold sizeSquared; rw [smul_def]; dsimp only; ring

theorem size_smul (c : ℝ) (v : Vec3) : size (c • v) = |c| * size v := by
  unfold size
  rw [sizeSquared_smul, Real.sqrt_mul (sq_nonneg c), Real.sqrt_sq_eq_abs]

theorem size_getSafeNormal (v : Vec3) (h : SMALL_NUMBER ≤ sizeSquared v) :
    size (getSafeNormal v) = 1 := by
  have hpos : 0 < sizeSquared v :=
    lt_of_lt_of_le (by norm_num [SMALL_NUMBER]) h
  unfold getSafeNormal
  split
  · rename_i h1; unfold size; rw [h1, Real.sqrt_one]
  · split
    · rename_i h2; exact absurd h2 (not_lt.mpr h)
    · rw [size_smul]
      have hsqrt : 0 < Real.sqrt (sizeSquared v) := Real.sqrt_pos.mpr hpos
      rw [abs_of_pos (by positivity)]
      unfold size
      field_simp

/-- C9 (amended). For a unit up axis, the velocity produced by
`MaintainHorizontalGroundVelocity` always has exactly zero dot product with
the up axis; and when `bMaintainHorizontalGroundVelocity` is false and the
plane projection of the velocity is not below the safe-normalization
tolerance, the produced velocity's magnitude equals the original one. -/
theorem maintainHorizontalGroundVelocity_spec (v up : Vec3) (b : Bool)
    (hup : sizeSquared up = 1) :
    dot (maintainHorizontalGroundVelocity v up b) up = 0 ∧
    (b = false → SMALL_NUMBER ≤ sizeSquared (vectorPlaneProject v up) →
      size (maintainHorizontalGroundVelocity v up b) = size v) := by
  constructor
  · unfold maintainHorizontalGroundVelocity
    split
    · exact dot_planeProject v up hup
    · rw [dot_smul_left,
        dot_getSafeNormal_zero _ _ (dot_planeProject v up hup), mul_zero]
  · intro hb htol
    unfold maintainHorizontalGroundVelocity
    rw [if_neg (by simp [hb])]
    rw [size_smul, size_getSafeNormal _ htol, mul_one,
      abs_of_nonneg (size_nonneg' v)]

/-- Witness for C9 (amended): walking velocity `(3, 4, 0)` under up axis
`(0, 0, 1)` keeps magnitude `5` and stays in the ground plane. -/
theorem maintainHorizontalGroundVelocity_spec_witness :
    dot (maintainHorizontalGroundVelocity ⟨3, 4, 0⟩ ⟨0, 0, 1⟩ false) ⟨0, 0, 1⟩ = 0 ∧
    size (maintainHorizontalGroundVelocity ⟨3, 4, 0⟩ ⟨0, 0, 1⟩ false) =
      size ⟨3, 4, 0⟩ := by
  have hup : sizeSquared (⟨0, 0, 1⟩ : Vec3) = 1 := by
    unfold sizeSquared; dsimp only; norm_num
  have hproj : vectorPlaneProject ⟨3, 4, 0⟩ ⟨0, 0, 1⟩ = ⟨3, 4, 0⟩ := by
    unfold vectorPlaneProject dot
    rw [smul_def, sub_def]
    dsimp only
    norm_num
  have hmain := maintainHorizontalGroundVelocity_spec ⟨3, 4, 0⟩ ⟨0, 0, 1⟩ false hup
  refine ⟨hmain.1, hmain.2 rfl ?_⟩
  rw [hproj]
  unfold sizeSquared SMALL_NUMBER
  dsimp only
  norm_num

/-- Counterexample to C9 as stated: for the purely vertical velocity
`(0, 0, 1)` under the unit up axis `(0, 0, 1)` with
`bMaintainHorizontalGroundVelocity = false`, the plane projection is
degenerate, so the result is the zero vector and the original magnitude `1`
is not preserved. -/
theorem maintainHorizontalGroundVelocity_magnitude_cex :
    sizeSquared (⟨0, 0, 1⟩ : Vec3) = 1 ∧
    size (maintainHorizontalGroundVelocity ⟨0, 0, 1⟩ ⟨0, 0, 1⟩ false) ≠
      size ⟨0, 0, 1⟩ := by
  have hup : sizeSquared (⟨0, 0, 1⟩ : Vec3) = 1 := by
    unfold sizeSquared; dsimp only; norm_num
  refine ⟨hup, ?_⟩
  have hproj : vectorPlaneProject ⟨0, 0, 1⟩ ⟨0, 0, 1⟩ = 0 := by
    unfold vectorPlaneProject dot
    rw [smul_def, sub_def, zero_def]
    dsimp only
    norm_num
  have hsz : sizeSquared (0 : Vec3) = 0 := by
    unfold sizeSquared; rw [zero_def]; dsimp only; ring
  have hsn : getSafeNormal (0 : Vec3) = 0 := by
    unfold getSafeNormal
    rw [if_neg (by rw [hsz]; norm_num),
      if_pos (by rw [hsz]; norm_num [SMALL_NUMBER])]
  have hres : maintainHorizontalGroundVelocity ⟨0, 0, 1⟩ ⟨0, 0, 1⟩ false = 0 := by
    unfold maintainHorizontalGroundVelocity
    rw [if_neg (by simp), hproj, hsn, smul_def, zero_def]
    dsimp only
    norm_num
  rw [hres]
  have h0 : size (0 : Vec3) = 0 := by
    unfold size; rw [hsz, Real.sqrt_zero]
  have h1 : size (⟨0, 0, 1⟩ : Vec3) = 1 := by
    unfold size; rw [hup, Real.sqrt_one]
  rw [h0, h1]
  norm_num

/-! ## C3: jump-apex substepping (`PhysFalling`, lines 1782-1807)

The substep decision uses only values already computed by the surrounding
iteration: the gravity direction, the velocity before and after
`NewFallVelocity`, the substep duration, the remaining macro-tick time, the
iteration counter, the per-simulation apex-attempt budget and the
`p.ForceJumpPeakSubstep` console flag (default on).  The code block is
embedded as a function from those inputs to the values it leaves behind. -/

/-- `ApexTimeMinimum` (PhysFalling line 1793). -/
def APEX_TIME_MINIMUM : ℝ := 0.0001

/-- Inputs of the apex-substep block of `PhysFalling`. -/
structure ApexInput where
  forceJumpPeakSubstep : Bool
  numJumpApexAttempts : ℤ
  maxJumpApexAttempts : ℤ
  gravityDir : Vec3
  oldVelocity : Vec3
  velocity : Vec3
  timeTick : ℝ
  remainingTime : ℝ
  iterations : ℤ

/-- Values the apex-substep block leaves behind. -/
structure ApexOutput where
  velocity : Vec3
  velocityZ : ℝ
  timeTick : ℝ
  remainingTime : ℝ
  iterations : ℤ
  numJumpApexAttempts : ℤ

/-- `OldSpeedZ = (OldVelocity | GravityDir) * -1.0f`. -/
def apexOldSpeedZ (a : ApexInput) : ℝ := -dot a.oldVelocity a.gravityDir

/-- `VelocityZ = (Velocity | GravityDir) * -1.0f` after gravity was applied. -/
def apexVelocityZ (a : ApexInput) : ℝ := -dot a.velocity a.gravityDir

/-- `DerivedAccel = (Velocity - OldVelocity) / timeTick`. -/
def apexDerivedAccel (a : ApexInput) : Vec3 :=
  (1 / a.timeTick) • (a.velocity - a.oldVelocity)

/-- `DerivedAccelZ = (DerivedAccel | GravityDir) * -1.0f`. -/
def apexDerivedAccelZ (a : ApexInput) : ℝ := -dot (apexDerivedAccel a) a.gravityDir

/-- `TimeToApex = -OldSpeedZ / DerivedAccelZ`. -/
def apexTimeToApex (a : ApexInput) : ℝ := -apexOldSpeedZ a / apexDerivedAccelZ a

/-- The apex-substep block of `UNinjaCharacterMovementComponent::PhysFalling`
(lines 1784-1806). -/
def jumpApexSubstep (a : ApexInput) : ApexOutput :=
  if a.forceJumpPeakSubstep = true ∧ apexOldSpeedZ a > 0 ∧ apexVelocityZ a ≤ 0 ∧
      a.numJumpApexAttempts < a.maxJumpApexAttempts then
    if ¬isNearlyZero (apexDerivedAccelZ a) then
      if APEX_TIME_MINIMUM ≤ apexTimeToApex a ∧ apexTimeToApex a < a.timeTick then
        { velocity := vectorPlaneProject
            (a.oldVelocity + apexTimeToApex a • apexDerivedAccel a) a.gravityDir
          velocityZ := 0
          timeTick := apexTimeToApex a
          remainingTime := a.remainingTime + (a.timeTick - apexTimeToApex a)
          iterations := a.iterations - 1
          numJumpApexAttempts := a.numJumpApexAttempts + 1 }
      else
        ⟨a.velocity, apexVelocityZ a, a.timeTick, a.remainingTime, a.iterations,
          a.numJumpApexAttempts⟩
    else
      ⟨a.velocity, apexVelocityZ a, a.timeTick, a.remainingTime, a.iterations,
        a.numJumpApexAttempts⟩
  else
    ⟨a.velocity, apexVelocityZ a, a.timeTick, a.remainingTime, a.iterations,
      a.numJumpApexAttempts⟩

/-- C3 (amended).  When the speed against gravity changes sign within a
substep (positive before gravity, non-positive after), the substep is cut
exactly at the analytic apex time `t = v0 / g` (with `v0` the prior speed
against gravity and `g = -DerivedAccelZ` the derived deceleration), the
velocity component along the gravity direction is set exactly to zero, and
the unused remainder of the substep is refunded to the remaining time --
provided the substep feature flag is on, the attempt budget is not
exhausted, the derived deceleration is not nearly zero, and the apex time
lies in `[ApexTimeMinimum, timeTick)`. -/
theorem jumpApexSubstep_spec (a : ApexInput)
    (hflag : a.forceJumpPeakSubstep = true)
    (hv0 : apexOldSpeedZ a > 0) (hv1 : apexVelocityZ a ≤ 0)
    (hbudget : a.numJumpApexAttempts < a.maxJumpApexAttempts)
    (haccel : ¬isNearlyZero (apexDerivedAccelZ a))
    (hmin : APEX_TIME_MINIMUM ≤ apexTimeToApex a)
    (hlt : apexTimeToApex a < a.timeTick)
    (hunit : sizeSquared a.gravityDir = 1) :
    (jumpApexSubstep a).timeTick = apexOldSpeedZ a / (-apexDerivedAccelZ a) ∧
    dot (jumpApexSubstep a).velocity a.gravityDir = 0 ∧
    (jumpApexSubstep a).velocityZ = 0 ∧
    (jumpApexSubstep a).remainingTime =
      a.remainingTime + (a.timeTick - apexTimeToApex a) ∧
    (jumpApexSubstep a).numJumpApexAttempts = a.numJumpApexAttempts + 1 := by
  have hcut : jumpApexSubstep a =
      { velocity := vectorPlaneProject
          (a.oldVelocity + apexTimeToApex a • apexDerivedAccel a) a.gravityDir
        velocityZ := 0
        timeTick := apexTimeToApex a
        remainingTime := a.remainingTime + (a.timeTick - apexTimeToApex a)
        iterations := a.iterations - 1
        numJumpApexAttempts := a.numJumpApexAttempts + 1 } := by
    unfold jumpApexSubstep
    rw [if_pos ⟨hflag, hv0, hv1, hbudget⟩, if_pos haccel, if_pos ⟨hmin, hlt⟩]
  rw [hcut]
  refine ⟨?_, ?_, rfl, rfl, rfl⟩
  · show apexTimeToApex a = apexOldSpeedZ a / (-apexDerivedAccelZ a)
    unfold apexTimeToApex
    rw [neg_div, div_neg]
  · exact dot_planeProject _ _ hunit

/-- A concrete apex configuration: rising at `10` against straight-down
gravity, `1 s` substep, derived deceleration `20`. -/
def apexInputC3 : ApexInput :=
  { forceJumpPeakSubstep := true
    numJumpApexAttempts := 0
    maxJumpApexAttempts := 2
    gravityDir := ⟨0, 0, -1⟩
    oldVelocity := ⟨0, 0, 10⟩
    velocity := ⟨0, 0, -10⟩
    timeTick := 1
    remainingTime := 3
    iterations := 5 }

theorem apexInputC3_oldSpeedZ : apexOldSpeedZ apexInputC3 = 10 := by
  unfold apexOldSpeedZ apexInputC3 dot
  dsimp only
  norm_num

theorem apexInputC3_velocityZ : apexVelocityZ apexInputC3 = -10 := by
  unfold apexVelocityZ apexInputC3 dot
  dsimp only
  norm_num

theorem apexInputC3_derivedAccelZ : apexDerivedAccelZ apexInputC3 = -20 := by
  unfold apexDerivedAccelZ apexDerivedAccel apexInputC3 dot
  rw [smul_def, sub_def]
  dsimp only
  norm_num

theorem apexInputC3_timeToApex : apexTimeToApex apexInputC3 = 1 / 2 := by
  unfold apexTimeToApex
  rw [apexInputC3_oldSpeedZ, apexInputC3_derivedAccelZ]
  norm_num

/-- Witness for C3 (amended): the `1 s` substep is cut at the apex time
`10 / 20 = 0.5 s`, the velocity along gravity becomes exactly zero, and the
unused `0.5 s` is refunded. -/
theorem jumpApexSubstep_spec_witness :
    (jumpApexSubstep apexInputC3).timeTick = 1 / 2 ∧
    dot (jumpApexSubstep apexInputC3).velocity apexInputC3.gravityDir = 0 ∧
    (jumpApexSubstep apexInputC3).remainingTime = 3 + (1 - 1 / 2) := by
  have h := jumpApexSubstep_spec apexInputC3 rfl
    (by rw [apexInputC3_oldSpeedZ]; norm_num)
    (by rw [apexInputC3_velocityZ]; norm_num)
    (by norm_num [apexInputC3])
    (by rw [isNearlyZero, apexInputC3_derivedAccelZ]; norm_num [SMALL_NUMBER])
    (by rw [apexInputC3_timeToApex]; norm_num [APEX_TIME_MINIMUM])
    (by rw [apexInputC3_timeToApex]; show (1:ℝ)/2 < apexInputC3.timeTick; norm_num [apexInputC3])
    (by unfold apexInputC3 sizeSquared; dsimp only; norm_num)
  refine ⟨?_, h.2.1, ?_⟩
  · rw [h.1, apexInputC3_oldSpeedZ, apexInputC3_derivedAccelZ]
    norm_num
  · rw [h.2.2.2.1, apexInputC3_timeToApex]
    show (3:ℝ) + (1 - 1/2) = 3 + (1 - 1/2)
    rfl

/-- A sign-change configuration below the minimum apex time: rising at the
tiny speed `1/20000` against straight-down gravity, `1/50 s` substep. -/
def apexInputC3cex : ApexInput :=
  { forceJumpPeakSubstep := true
    numJumpApexAttempts := 0
    maxJumpApexAttempts := 2
    gravityDir := ⟨0, 0, -1⟩
    oldVelocity := ⟨0, 0, 1/20000⟩
    velocity := ⟨0, 0, -1⟩
    timeTick := 1/50
    remainingTime := 3
    iterations := 5 }

/-- Counterexample to C3 as stated: the speed against gravity changes sign
within the substep (`1/20000 > 0` before, `-1 ≤ 0` after), the feature flag
is on and the attempt budget is free, yet no apex substep is inserted
because the analytic apex time `1/1000050` is below `ApexTimeMinimum`: the
substep duration stays `1/50` and the velocity along gravity stays `-1`
instead of zero. -/
theorem jumpApexSubstep_cex :
    apexOldSpeedZ apexInputC3cex > 0 ∧ apexVelocityZ apexInputC3cex ≤ 0 ∧
    apexInputC3cex.forceJumpPeakSubstep = true ∧
    apexInputC3cex.numJumpApexAttempts < apexInputC3cex.maxJumpApexAttempts ∧
    (jumpApexSubstep apexInputC3cex).timeTick = 1 / 50 ∧
    (jumpApexSubstep apexInputC3cex).velocityZ = -1 := by
  have hold : apexOldSpeedZ apexInputC3cex = 1/20000 := by
    unfold apexOldSpeedZ apexInputC3cex dot
    dsimp only
    norm_num
  have hvz : apexVelocityZ apexInputC3cex = -1 := by
    unfold apexVelocityZ apexInputC3cex dot
    dsimp only
    norm_num
  have haz : apexDerivedAccelZ apexInputC3cex = -(20001/400) := by
    unfold apexDerivedAccelZ apexDerivedAccel apexInputC3cex dot
    rw [smul_def, sub_def]
    dsimp only
    norm_num
  have hta : apexTimeToApex apexInputC3cex = 1/1000050 := by
    unfold apexTimeToApex
    rw [hold, haz]
    norm_num
  have hres : jumpApexSubstep apexInputC3cex =
      ⟨apexInputC3cex.velocity, apexVelocityZ apexInputC3cex,
        apexInputC3cex.timeTick, apexInputC3cex.remainingTime,
        apexInputC3cex.iterations, apexInputC3cex.numJumpApexAttempts⟩ := by
    unfold jumpApexSubstep
    rw [if_pos ⟨rfl, by rw [hold]; norm_num, by rw [hvz]; norm_num,
        by norm_num [apexInputC3cex]⟩,
      if_pos (by
        unfold isNearlyZero
        rw [haz, abs_neg, abs_of_pos (by norm_num : (0:ℝ) < 20001/400)]
        norm_num [SMALL_NUMBER]),
      if_neg (by rw [hta]; intro hc; have := hc.1; norm_num [APEX_TIME_MINIMUM] at this)]
  refine ⟨by rw [hold]; norm_num, by rw [hvz]; norm_num, rfl,
    by norm_num [apexInputC3cex], ?_, ?_⟩
  · rw [hres]
    show apexInputC3cex.timeTick = 1/50
    rfl
  · rw [hres]
    show apexVelocityZ apexInputC3cex = -1
    exact hvz

/-! ## C5: walkability classification (`IsWalkable`, lines 2958-2998)

The hit component's walkable-slope override
(`FWalkableSlopeOverride::ModifyWalkableFloorZ`) belongs to the collision
backend; it enters as an optional threshold-modifying function attached to
the hit.  `GetGravityDirection()` is called with its default
`bAvoidZeroGravity = false`; its value enters as a parameter. -/

/-- The hit-result fields read by `IsWalkable`.  `isValidBlockingHit` is
`FHitResult::IsValidBlockingHit` (`bBlockingHit && !bStartPenetrating`);
`slopeOverride` is the per-surface walkable-slope override of the hit
component, when one is attached. -/
structure WalkableHit where
  isValidBlockingHit : Bool
  impactNormal : Vec3
  slopeOverride : Option (ℝ → ℝ)

/-- The walkable threshold after the per-surface override
(`SlopeOverride.ModifyWalkableFloorZ(TestWalkableZ)`). -/
def walkableTestZ (hit : WalkableHit) (walkableFloorZ : ℝ) : ℝ :=
  match hit.slopeOverride with
  | none => walkableFloorZ
  | some modify => modify walkableFloorZ

/-- `UNinjaCharacterMovementComponent::IsWalkable`. -/
def isWalkable (hit : WalkableHit) (capsuleUp gravityDir : Vec3)
    (walkableFloorZ : ℝ) (bLandOnAnySurface isFalling : Bool) : Bool :=
  if hit.isValidBlockingHit = false then false
  else if dot hit.impactNormal capsuleUp < KINDA_SMALL_NUMBER then false
  else if dot hit.impactNormal capsuleUp < walkableTestZ hit walkableFloorZ then false
  else if bLandOnAnySurface = false ∧ isFalling = true ∧
      dot hit.impactNormal ((-1 : ℝ) • gravityDir) < walkableTestZ hit walkableFloorZ then
    false
  else true

/-- C5. `IsWalkable` accepts a hit exactly when: it is a valid blocking hit,
the impact normal's dot product with the capsule up axis reaches the small
epsilon `KINDA_SMALL_NUMBER`, that dot product also reaches the walkable
threshold (after any per-surface slope override), and -- unless
`bLandOnAnySurface` is set -- if the agent is falling, the impact normal's
dot product with the reversed gravity direction also reaches that same
threshold. -/
theorem isWalkable_iff (hit : WalkableHit) (capsuleUp gravityDir : Vec3)
    (walkableFloorZ : ℝ) (bLandOnAnySurface isFalling : Bool) :
    isWalkable hit capsuleUp gravityDir walkableFloorZ bLandOnAnySurface isFalling = true ↔
      (hit.isValidBlockingHit = true ∧
       KINDA_SMALL_NUMBER ≤ dot hit.impactNormal capsuleUp ∧
       walkableTestZ hit walkableFloorZ ≤ dot hit.impactNormal capsuleUp ∧
       (bLandOnAnySurface = true ∨ isFalling = false ∨
         walkableTestZ hit walkableFloorZ ≤
           dot hit.impactNormal ((-1 : ℝ) • gravityDir))) := by
  unfold isWalkable
  split_ifs with h1 h2 h3 h4
  · constructor
    · intro h; exact absurd h (by simp)
    · intro h; rw [h1] at h; exact absurd h.1 (by simp)
  · constructor
    · intro h; exact absurd h (by simp)
    · intro h; exact absurd h.2.1 (not_le.mpr h2)
  · constructor
    · intro h; exact absurd h (by simp)
    · intro h; exact absurd h.2.2.1 (not_le.mpr h3)
  · constructor
    · intro h; exact absurd h (by simp)
    · intro h
      rcases h.2.2.2 with hd | hd | hd
      · rw [h4.1] at hd; exact absurd hd (by simp)
      · rw [h4.2.1] at hd; exact absurd hd (by simp)
      · exact absurd hd (not_le.mpr h4.2.2)
  · constructor
    · intro _
      refine ⟨by simpa using h1, not_lt.mp h2, not_lt.mp h3, ?_⟩
      by_cases hl : bLandOnAnySurface = true
      · exact Or.inl hl
      · by_cases hf : isFalling = false
        · exact Or.inr (Or.inl hf)
        · refine Or.inr (Or.inr ?_)
          by_contra hc
          exact h4 ⟨by simpa using hl, by simpa using hf, not_le.mp hc⟩
    · intro _; rfl

/-! ## C6: floor-height adjustment (`AdjustFloorHeight`, lines 2521-2588)

The single `SafeMoveUpdatedComponent` call of the method is the only
external effect; it enters as an oracle taking the attempted delta and
returning where the capsule ended up plus the blocking-hit information. -/

/-- The `FFindFloorResult` fields read and written by `AdjustFloorHeight`. -/
structure FindFloorResult where
  bBlockingHit : Bool
  bWalkableFloor : Bool
  bLineTrace : Bool
  floorDist : ℝ
  lineDist : ℝ

/-- `FFindFloorResult::IsWalkableFloor`. -/
def isWalkableFloor (f : FindFloorResult) : Bool :=
  f.bBlockingHit && f.bWalkableFloor

/-- Outcome of the `SafeMoveUpdatedComponent` call inside
`AdjustFloorHeight`: final component location, whether the adjust hit was a
valid blocking hit, the hit's location, and whether `IsWalkable` accepts
the adjust hit. -/
structure AdjustMoveOutcome where
  endLocation : Vec3
  isValidBlockingHit : Bool
  hitLocation : Vec3
  hitIsWalkable : Bool

/-- The "move up or down to maintain floor height" block of
`AdjustFloorHeight` (lines 2548-2576), given the resolved `OldFloorDist`. -/
def adjustFloorHeightMove (floor : FindFloorResult) (location capsuleUp : Vec3)
    (move : Vec3 → AdjustMoveOutcome) (oldFloorDist : ℝ) : FindFloorResult × Vec3 :=
  if oldFloorDist < MIN_FLOOR_DIST ∨ oldFloorDist > MAX_FLOOR_DIST then
    if (move (((MIN_FLOOR_DIST + MAX_FLOOR_DIST) * 0.5 - oldFloorDist) • capsuleUp)).isValidBlockingHit = false then
      ({ floor with
          floorDist := floor.floorDist + ((MIN_FLOOR_DIST + MAX_FLOOR_DIST) * 0.5 - oldFloorDist) },
       (move (((MIN_FLOOR_DIST + MAX_FLOOR_DIST) * 0.5 - oldFloorDist) • capsuleUp)).endLocation)
    else if (MIN_FLOOR_DIST + MAX_FLOOR_DIST) * 0.5 - oldFloorDist > 0 then
      ({ floor with
          floorDist := floor.floorDist + dot
            (location - (move (((MIN_FLOOR_DIST + MAX_FLOOR_DIST) * 0.5 - oldFloorDist) • capsuleUp)).endLocation)
            capsuleUp },
       (move (((MIN_FLOOR_DIST + MAX_FLOOR_DIST) * 0.5 - oldFloorDist) • capsuleUp)).endLocation)
    else if (move (((MIN_FLOOR_DIST + MAX_FLOOR_DIST) * 0.5 - oldFloorDist) • capsuleUp)).hitIsWalkable = true then
      ({ bBlockingHit := true, bWalkableFloor := true, bLineTrace := false,
         floorDist := dot
           ((move (((MIN_FLOOR_DIST + MAX_FLOOR_DIST) * 0.5 - oldFloorDist) • capsuleUp)).hitLocation -
             (move (((MIN_FLOOR_DIST + MAX_FLOOR_DIST) * 0.5 - oldFloorDist) • capsuleUp)).endLocation)
           capsuleUp,
         lineDist := floor.lineDist },
       (move (((MIN_FLOOR_DIST + MAX_FLOOR_DIST) * 0.5 - oldFloorDist) • capsuleUp)).endLocation)
    else
      ({ floor with
          floorDist := dot
            ((move (((MIN_FLOOR_DIST + MAX_FLOOR_DIST) * 0.5 - oldFloorDist) • capsuleUp)).hitLocation -
              (move (((MIN_FLOOR_DIST + MAX_FLOOR_DIST) * 0.5 - oldFloorDist) • capsuleUp)).endLocation)
            capsuleUp },
       (move (((MIN_FLOOR_DIST + MAX_FLOOR_DIST) * 0.5 - oldFloorDist) • capsuleUp)).endLocation)
  else (floor, location)

/-- `UNinjaCharacterMovementComponent::AdjustFloorHeight`, returning the
updated floor result and component location. -/
def adjustFloorHeight (floor : FindFloorResult) (location capsuleUp : Vec3)
    (move : Vec3 → AdjustMoveOutcome) : FindFloorResult × Vec3 :=
  if isWalkableFloor floor = false then (floor, location)
  else if floor.bLineTrace = true ∧ floor.floorDist < MIN_FLOOR_DIST ∧
      MIN_FLOOR_DIST ≤ floor.lineDist then
    (floor, location)
  else
    adjustFloorHeightMove floor location capsuleUp move
      (if floor.bLineTrace = true then floor.lineDist else floor.floorDist)

/-- C6 (amended). If the current floor is walkable, was found by the
downward sweep (not the line-trace fallback), and the height-adjustment
move -- when one is needed -- completes without a valid blocking hit, then
after `AdjustFloorHeight` the recorded floor distance satisfies
`MIN_FLOOR_DIST ≤ FloorDist ≤ MAX_FLOOR_DIST`. -/
theorem adjustFloorHeight_spec (floor : FindFloorResult) (location capsuleUp : Vec3)
    (move : Vec3 → AdjustMoveOutcome)
    (hwalk : isWalkableFloor floor = true)
    (hsweep : floor.bLineTrace = false)
    (hfree : ∀ d, (move d).isValidBlockingHit = false) :
    MIN_FLOOR_DIST ≤ (adjustFloorHeight floor location capsuleUp move).1.floorDist ∧
    (adjustFloorHeight floor location capsuleUp move).1.floorDist ≤ MAX_FLOOR_DIST := by
  unfold adjustFloorHeight
  rw [if_neg (by simp [hwalk]), if_neg (by simp [hsweep])]
  rw [if_neg (by simp [hsweep] : ¬floor.bLineTrace = true)]
  unfold adjustFloorHeightMove
  by_cases hrange : floor.floorDist < MIN_FLOOR_DIST ∨ floor.floorDist > MAX_FLOOR_DIST
  · rw [if_pos hrange, if_pos (hfree _)]
    dsimp only
    constructor <;> · norm_num [MIN_FLOOR_DIST, MAX_FLOOR_DIST]
  · rw [if_neg hrange]
    push_neg at hrange
    exact ⟨hrange.1, hrange.2⟩

/-- A free-space movement oracle: every attempted adjustment completes with
no blocking hit. -/
def freeSpaceMove (location : Vec3) : Vec3 → AdjustMoveOutcome :=
  fun d => ⟨location + d, false, location + d, false⟩

/-- Witness for C6 (amended): a sweep-found walkable floor at distance `0`
is adjusted in free space; the resulting floor distance is the average
`2.15`, inside `[1.9, 2.4]`. -/
theorem adjustFloorHeight_spec_witness :
    MIN_FLOOR_DIST ≤
      (adjustFloorHeight ⟨true, true, false, 0, 0⟩ 0 ⟨0, 0, 1⟩
        (freeSpaceMove 0)).1.floorDist ∧
    (adjustFloorHeight ⟨true, true, false, 0, 0⟩ 0 ⟨0, 0, 1⟩
        (freeSpaceMove 0)).1.floorDist ≤ MAX_FLOOR_DIST :=
  adjustFloorHeight_spec ⟨true, true, false, 0, 0⟩ 0 ⟨0, 0, 1⟩ (freeSpaceMove 0)
    rfl rfl (fun _ => rfl)

/-- Counterexample to C6 as stated: a walkable floor recorded from the
line-trace fallback with sweep distance `0` and line distance `2` makes
`AdjustFloorHeight` abort (the "would scale unwalkable walls" early
return), leaving the floor distance at `0 < MIN_FLOOR_DIST`. -/
theorem adjustFloorHeight_cex :
    isWalkableFloor ⟨true, true, true, 0, 2⟩ = true ∧
    (adjustFloorHeight ⟨true, true, true, 0, 2⟩ 0 ⟨0, 0, 1⟩
      (freeSpaceMove 0)).1.floorDist = 0 ∧
    (0 : ℝ) < MIN_FLOOR_DIST := by
  refine ⟨by simp [isWalkableFloor], ?_, by norm_num [MIN_FLOOR_DIST]⟩
  unfold adjustFloorHeight
  rw [if_neg (by simp [isWalkableFloor]), if_pos ⟨rfl, by norm_num [MIN_FLOOR_DIST],
    by norm_num [MIN_FLOOR_DIST]⟩]

/-! ## C4: client-side handling of a correction with an unresolved base
(`ClientAdjustPosition_Implementation`, lines 3958-3995 and onward)

The saved-move lookup (`GetSavedMoveIndex`), the movement-base transform and
the network-origin rebase are external; they enter as oracle parameters.
Only the state the claim talks about (location, velocity, movement mode,
which saved move got acknowledged) is tracked; the rotation-synchronization
branch chooses between two location-setting calls that write the same
location, so the location outcome is uniform. -/

/-- Inputs of `ClientAdjustPosition_Implementation`. -/
structure ClientAdjustEnv where
  hasValidData : Bool
  isActive : Bool
  newLocation : Vec3
  newVelocity : Vec3
  newBase : Option Nat
  bHasBase : Bool
  bBaseRelativePosition : Bool
  serverMovementMode : Nat
  savedMoveIndex : Option Nat
  baseLocation : Vec3
  rebaseOntoLocalOrigin : Vec3 → Vec3

/-- Client movement state touched by the correction. -/
structure ClientState where
  location : Vec3
  velocity : Vec3
  movementMode : Nat

/-- Outcome of `ClientAdjustPosition_Implementation`: the client state and
the saved move acknowledged by `AckMove`, if any. -/
structure ClientAdjustOutcome where
  location : Vec3
  velocity : Vec3
  movementMode : Nat
  ackedMove : Option Nat

/-- `UNinjaCharacterMovementComponent::ClientAdjustPosition_Implementation`. -/
def clientAdjustPosition (e : ClientAdjustEnv) (s : ClientState) :
    ClientAdjustOutcome :=
  if e.hasValidData = false ∨ e.isActive = false then
    ⟨s.location, s.velocity, s.movementMode, none⟩
  else if (e.bHasBase = true ∧ e.newBase = none) ∧ e.bBaseRelativePosition = true then
    -- unresolved relative base: ignore the server correction outright
    ⟨s.location, s.velocity, s.movementMode, none⟩
  else
    match e.savedMoveIndex with
    | none => ⟨s.location, s.velocity, s.movementMode, none⟩
    | some moveIndex =>
        ⟨(if e.bBaseRelativePosition = true then e.newLocation + e.baseLocation
          else e.rebaseOntoLocalOrigin e.newLocation),
         e.newVelocity, e.serverMovementMode, some moveIndex⟩

/-- C4. When a correction's movement base cannot be resolved (`bHasBase`
true but a null base pointer): a base-relative correction is rejected
before any saved move is acknowledged, leaving location, velocity and
movement mode unchanged; an absolute correction is applied anyway, moving
the client to the rebased server location, adopting the server velocity
and movement mode, and acknowledging the matched saved move. -/
theorem clientAdjustPosition_unresolvedBase_spec (e : ClientAdjustEnv)
    (s : ClientState) (hbase : e.bHasBase = true) (hnull : e.newBase = none) :
    (e.bBaseRelativePosition = true →
      clientAdjustPosition e s =
        ⟨s.location, s.velocity, s.movementMode, none⟩) ∧
    (e.bBaseRelativePosition = false → e.hasValidData = true → e.isActive = true →
      ∀ moveIndex, e.savedMoveIndex = some moveIndex →
        clientAdjustPosition e s =
          ⟨e.rebaseOntoLocalOrigin e.newLocation, e.newVelocity,
            e.serverMovementMode, some moveIndex⟩) := by
  constructor
  · intro hrel
    unfold clientAdjustPosition
    split
    · rfl
    · rw [if_pos ⟨⟨hbase, hnull⟩, hrel⟩]
  · intro hrel hvalid hactive moveIndex hidx
    unfold clientAdjustPosition
    rw [if_neg (by simp [hvalid, hactive]), if_neg (by simp [hrel]), hidx]
    rw [if_neg (by simp [hrel])]

/-- Witness for C4: one concrete rejected relative correction and one
concrete applied absolute correction with an unresolved base. -/
theorem clientAdjustPosition_unresolvedBase_spec_witness :
    clientAdjustPosition
      ⟨true, true, ⟨1, 2, 3⟩, ⟨4, 5, 6⟩, none, true, true, 2, some 7, ⟨9, 9, 9⟩, id⟩
      ⟨⟨0, 0, 0⟩, ⟨1, 1, 1⟩, 4⟩ = ⟨⟨0, 0, 0⟩, ⟨1, 1, 1⟩, 4, none⟩ ∧
    clientAdjustPosition
      ⟨true, true, ⟨1, 2, 3⟩, ⟨4, 5, 6⟩, none, true, false, 2, some 7, ⟨9, 9, 9⟩, id⟩
      ⟨⟨0, 0, 0⟩, ⟨1, 1, 1⟩, 4⟩ = ⟨⟨1, 2, 3⟩, ⟨4, 5, 6⟩, 2, some 7⟩ := by
  constructor
  · exact (clientAdjustPosition_unresolvedBase_spec _ _ rfl rfl).1 rfl
  · exact (clientAdjustPosition_unresolvedBase_spec _ _ rfl rfl).2 rfl rfl rfl 7 rfl

/-! ## C2: server-side move validation
(`ServerMoveHandleClientError`, lines 3828-3956)

`ServerCheckClientError` and `ServerShouldUseAuthoritativePosition` are
sibling methods whose boolean answers for this invocation enter as oracle
fields, as do the network-manager throttle check, the movement-base
transforms, and the origin rebases.  The early returns (first leg of an
unpacked double server-move, and the update-delay throttle) make the
function return `none`: no acknowledgement or correction is produced for
that invocation.  The substitution of a null client base while walking
(lines 3869-3873) only changes the inputs fed to the oracles, so it is
absorbed by them. -/

/-- The `PendingAdjustment` fields written by `ServerMoveHandleClientError`. -/
structure PendingAdjustment where
  newVel : Vec3
  newLoc : Vec3
  newRot : Vec3
  newBase : Option Nat
  newBaseBoneName : Nat
  bBaseRelativePosition : Bool
  deltaTime : ℝ
  timeStamp : ℝ
  bAckGoodMove : Bool
  movementMode : Nat

/-- Inputs of `ServerMoveHandleClientError`: the received move data, the
oracle answers of the sibling checks, and the server's authoritative
state. -/
structure ServerMoveEnv where
  shouldUsePackedMovementRPCs : Bool
  relativeClientLoc : Vec3
  lastUpdateTime : ℝ
  worldTimeSeconds : ℝ
  withinUpdateDelayBounds : Bool
  clientTimeStamp : ℝ
  deltaTime : ℝ
  bForceClientUpdate : Bool
  serverCheckClientError : Bool
  serverShouldUseAuthoritativePosition : Bool
  velocity : Vec3
  componentLocation : Vec3
  componentRotation : Vec3
  movementBase : Option Nat
  basedMovementBoneName : Nat
  basedMovementLocation : Vec3
  useRelativeLocationBase : Bool
  packedMovementMode : Nat
  rebaseOntoZeroOrigin : Vec3 → Vec3

/-- State left behind by a processed `ServerMoveHandleClientError` call. -/
structure ServerMoveOutcome where
  pendingAdjustment : PendingAdjustment
  bNetworkLargeClientCorrection : Bool
  lastUpdateTime : ℝ
  bForceClientUpdate : Bool

/-- `UNinjaCharacterMovementComponent::ServerMoveHandleClientError`; `none`
when one of the two early returns fires (the move is not processed this
call), otherwise the state written back.  `prior` carries the
`PendingAdjustment` fields not assigned on the acknowledgement path. -/
def serverMoveHandleClientError (e : ServerMoveEnv) (prior : PendingAdjustment)
    (priorLastUpdateTime : ℝ) : Option ServerMoveOutcome :=
  if e.shouldUsePackedMovementRPCs = false ∧ e.relativeClientLoc = ⟨1, 2, 3⟩ then
    none
  else if e.lastUpdateTime ≠ e.worldTimeSeconds ∧ e.withinUpdateDelayBounds = true then
    none
  else if e.bForceClientUpdate = true ∨ e.serverCheckClientError = true then
    some
      { pendingAdjustment :=
          { newVel := e.velocity
            newLoc := if e.useRelativeLocationBase = true then e.basedMovementLocation
              else e.rebaseOntoZeroOrigin e.componentLocation
            newRot := e.componentRotation
            newBase := e.movementBase
            newBaseBoneName := e.basedMovementBoneName
            bBaseRelativePosition := e.useRelativeLocationBase
            deltaTime := e.deltaTime
            timeStamp := e.clientTimeStamp
            bAckGoodMove := false
            movementMode := e.packedMovementMode }
        bNetworkLargeClientCorrection := e.bForceClientUpdate
        lastUpdateTime := e.worldTimeSeconds
        bForceClientUpdate := false }
  else
    some
      { pendingAdjustment :=
          { prior with timeStamp := e.clientTimeStamp, bAckGoodMove := true }
        bNetworkLargeClientCorrection := e.bForceClientUpdate
        lastUpdateTime := priorLastUpdateTime
        bForceClientUpdate := false }

/-- C2. For every client move the server processes (no early return), a
position correction -- `PendingAdjustment` with `bAckGoodMove = false`,
carrying the server's authoritative velocity, location (base-relative when
the server base uses relative positioning), rotation, base and packed
movement mode -- is queued if and only if the force-update flag is set or
`ServerCheckClientError` reported divergence; otherwise the move is
acknowledged with `bAckGoodMove = true` and no other adjustment field is
touched. -/
theorem serverMoveHandleClientError_spec (e : ServerMoveEnv)
    (prior : PendingAdjustment) (priorLastUpdateTime : ℝ)
    (out : ServerMoveOutcome)
    (hout : serverMoveHandleClientError e prior priorLastUpdateTime = some out) :
    (out.pendingAdjustment.bAckGoodMove = false ↔
      (e.bForceClientUpdate = true ∨ e.serverCheckClientError = true)) ∧
    ((e.bForceClientUpdate = true ∨ e.serverCheckClientError = true) →
      out.pendingAdjustment.newVel = e.velocity ∧
      out.pendingAdjustment.newLoc =
        (if e.useRelativeLocationBase = true then e.basedMovementLocation
         else e.rebaseOntoZeroOrigin e.componentLocation) ∧
      out.pendingAdjustment.newRot = e.componentRotation ∧
      out.pendingAdjustment.newBase = e.movementBase ∧
      out.pendingAdjustment.movementMode = e.packedMovementMode ∧
      out.pendingAdjustment.timeStamp = e.clientTimeStamp) ∧
    (¬(e.bForceClientUpdate = true ∨ e.serverCheckClientError = true) →
      out.pendingAdjustment =
        { prior with timeStamp := e.clientTimeStamp, bAckGoodMove := true }) := by
  unfold serverMoveHandleClientError at hout
  split at hout
  · exact absurd hout (by simp)
  · split at hout
    · exact absurd hout (by simp)
    · split at hout
      · rename_i hcorr
        rw [Option.some_inj] at hout
        subst hout
        refine ⟨by simp [hcorr], fun _ => ⟨rfl, rfl, rfl, rfl, rfl, rfl⟩,
          fun hc => absurd hcorr hc⟩
      · rename_i hcorr
        rw [Option.some_inj] at hout
        subst hout
        refine ⟨by simp [hcorr], fun hc => absurd hc hcorr, fun _ => rfl⟩

/-- A concrete processed move whose claimed state diverged beyond
tolerance (`ServerCheckClientError` true, no force update). -/
def serverMoveEnvC2 : ServerMoveEnv :=
  { shouldUsePackedMovementRPCs := true
    relativeClientLoc := ⟨8, 8, 8⟩
    lastUpdateTime := 5
    worldTimeSeconds := 5
    withinUpdateDelayBounds := false
    clientTimeStamp := 41
    deltaTime := 1/60
    bForceClientUpdate := false
    serverCheckClientError := true
    serverShouldUseAuthoritativePosition := false
    velocity := ⟨1, 0, 0⟩
    componentLocation := ⟨10, 20, 30⟩
    componentRotation := ⟨0, 0, 0⟩
    movementBase := none
    basedMovementBoneName := 0
    basedMovementLocation := ⟨0, 0, 0⟩
    useRelativeLocationBase := false
    packedMovementMode := 1
    rebaseOntoZeroOrigin := id }

/-- An adjustment left from before the call, for the fields the
acknowledgement path does not assign. -/
def priorAdjustmentC2 : PendingAdjustment :=
  ⟨0, 0, 0, none, 0, false, 0, 0, true, 0⟩

/-- Witness for C2: the diverged move yields a queued correction
(`bAckGoodMove = false`) carrying the server state, and the same move with
the divergence check answering false is acknowledged silently. -/
theorem serverMoveHandleClientError_spec_witness :
    ((serverMoveHandleClientError serverMoveEnvC2 priorAdjustmentC2 5).map
        (fun out => out.pendingAdjustment.bAckGoodMove) = some false ∧
      (serverMoveHandleClientError serverMoveEnvC2 priorAdjustmentC2 5).map
        (fun out => out.pendingAdjustment.newLoc) = some ⟨10, 20, 30⟩) ∧
    (serverMoveHandleClientError
        { serverMoveEnvC2 with serverCheckClientError := false }
        priorAdjustmentC2 5).map
      (fun out => out.pendingAdjustment.bAckGoodMove) = some true := by
  have hproc : serverMoveHandleClientError serverMoveEnvC2 priorAdjustmentC2 5 =
      some
        { pendingAdjustment :=
            { newVel := ⟨1, 0, 0⟩, newLoc := ⟨10, 20, 30⟩, newRot := ⟨0, 0, 0⟩,
              newBase := none, newBaseBoneName := 0, bBaseRelativePosition := false,
              deltaTime := 1/60, timeStamp := 41, bAckGoodMove := false,
              movementMode := 1 }
          bNetworkLargeClientCorrection := false
          lastUpdateTime := 5
          bForceClientUpdate := false } := by
    unfold serverMoveHandleClientError
    rw [if_neg (by simp [serverMoveEnvC2]), if_neg (by simp [serverMoveEnvC2]),
      if_pos (by simp [serverMoveEnvC2])]
    simp [serverMoveEnvC2]
  have hack : serverMoveHandleClientError
      { serverMoveEnvC2 with serverCheckClientError := false }
      priorAdjustmentC2 5 =
      some
        { pendingAdjustment :=
            { priorAdjustmentC2 with timeStamp := 41, bAckGoodMove := true }
          bNetworkLargeClientCorrection := false
          lastUpdateTime := 5
          bForceClientUpdate := false } := by
    unfold serverMoveHandleClientError
    rw [if_neg (by simp [serverMoveEnvC2]), if_neg (by simp [serverMoveEnvC2]),
      if_neg (by simp [serverMoveEnvC2])]
    rfl
  have h1 := (serverMoveHandleClientError_spec serverMoveEnvC2 priorAdjustmentC2 5 _
    hproc).1
  refine ⟨⟨?_, ?_⟩, ?_⟩
  · rw [hproc]
    exact congrArg some (h1.mpr (Or.inr rfl))
  · rw [hproc]
    rfl
  · rw [hack]
    rfl

/-! ## C7: step-up traversal (`StepUp`, lines 3348-3563)

`StepUp` performs three `MoveUpdatedComponent` sweeps inside an
`FScopedMovementUpdate`; `RevertMove` restores the location recorded at
scope start (which equals the location at the call, since the scope opens
before the first sweep).  The sweeps, `SlideAlongSurface`, `HandleImpact`
(whose side effects may switch the mode to falling), `CanStepUp`,
`IsWalkable` on the down hit, and the `FindFloor` used for the step-down
result are external for this method; their outcomes for one invocation
enter as oracle fields of the environment. -/

/-- The `FHitResult` fields `StepUp` reads from its sweeps. -/
structure StepHit where
  bBlockingHit : Bool
  bStartPenetrating : Bool
  time : ℝ
  location : Vec3
  impactPoint : Vec3
  impactNormal : Vec3

/-- `FHitResult::IsValidBlockingHit`. -/
def hitIsValidBlocking (h : StepHit) : Bool := h.bBlockingHit && !h.bStartPenetrating

/-- `UNinjaCharacterMovementComponent::IsWithinEdgeToleranceEx`. -/
def isWithinEdgeToleranceEx (capsuleLocation capsuleDown : Vec3)
    (capsuleRadius : ℝ) (testImpactPoint : Vec3) : Prop :=
  sizeSquared (capsuleLocation +
      dot (testImpactPoint - capsuleLocation) capsuleDown • capsuleDown -
      testImpactPoint) <
    (max (SWEEP_EDGE_REJECT_DISTANCE + KINDA_SMALL_NUMBER)
      (capsuleRadius - SWEEP_EDGE_REJECT_DISTANCE)) ^ 2

/-- Inputs of one `StepUp` invocation: capsule data, the blocking hit that
triggered the step, the cached current floor, and the oracle outcomes of
the collision calls made during the attempt. -/
structure StepUpEnv where
  canStepUpInHit : Bool
  maxStepHeight : ℝ
  oldLocation : Vec3
  pawnRadius : ℝ
  pawnHalfHeight : ℝ
  capsuleUp : Vec3
  gravDir : Vec3
  delta : Vec3
  inHitImpactPoint : Vec3
  inHitImpactNormal : Vec3
  inHitLocation : Vec3
  isMovingOnGround : Bool
  currentFloorWalkable : Bool
  currentFloorDist : ℝ
  currentFloorLineDist : ℝ
  currentFloorLineTrace : Bool
  currentFloorImpactPoint : Vec3
  sweepUpHit : StepHit
  forwardHit : StepHit
  forwardEndLocation : Vec3
  isFallingAfterForwardImpact : Bool
  slideAmount : ℝ
  isFallingAfterSlide : Bool
  downHit : StepHit
  downEndLocation : Vec3
  downHitWalkable : Bool
  canStepUpDownHit : Bool
  wantsStepDownResult : Bool
  floorResultBlockingHit : Bool

/-- `CapsuleDown = GetComponentAxisZ() * -1.0f`. -/
def stepUpCapsuleDown (e : StepUpEnv) : Vec3 := (-1 : ℝ) • e.capsuleUp

/-- `BottomPoint = OldLocation + CapsuleDown * PawnHalfHeight`. -/
def stepUpBottomPoint (e : StepUpEnv) : Vec3 :=
  e.oldLocation + e.pawnHalfHeight • stepUpCapsuleDown e

/-- `TopPoint = OldLocation - CapsuleDown * Max(0, HalfHeight - Radius)`. -/
def stepUpTopPoint (e : StepUpEnv) : Vec3 :=
  e.oldLocation - max 0 (e.pawnHalfHeight - e.pawnRadius) • stepUpCapsuleDown e

/-- `Segment = TopPoint - BottomPoint`. -/
def stepUpSegment (e : StepUpEnv) : Vec3 := stepUpTopPoint e - stepUpBottomPoint e

/-- `IsMovingOnGround() && CurrentFloor.IsWalkableFloor()`. -/
def stepUpGrounded (e : StepUpEnv) : Prop :=
  e.isMovingOnGround = true ∧ e.currentFloorWalkable = true

/-- `FFindFloorResult::GetDistanceToFloor` of the cached current floor. -/
def stepUpFloorDistToFloor (e : StepUpEnv) : ℝ :=
  if e.currentFloorLineTrace = true then e.currentFloorLineDist else e.currentFloorDist

/-- `FloorDist = Max(0, CurrentFloor.GetDistanceToFloor())`. -/
def stepUpFloorDistClamped (e : StepUpEnv) : ℝ := max 0 (stepUpFloorDistToFloor e)

/-- `PawnInitialFloorBase` after the grounded adjustment. -/
def stepUpInitialFloorBase (e : StepUpEnv) : Vec3 :=
  if stepUpGrounded e then
    stepUpBottomPoint e + stepUpFloorDistClamped e • stepUpCapsuleDown e
  else stepUpBottomPoint e

/-- `StepTravelUpHeight` after the grounded adjustment. -/
def stepUpTravelUpHeight (e : StepUpEnv) : ℝ :=
  if stepUpGrounded e then max (e.maxStepHeight - stepUpFloorDistClamped e) 0
  else e.maxStepHeight

/-- `StepTravelDownHeight` after the grounded adjustment. -/
def stepUpTravelDownHeight (e : StepUpEnv) : ℝ :=
  if stepUpGrounded e then e.maxStepHeight + MAX_FLOOR_DIST * 2
  else e.maxStepHeight

/-- `bHitVerticalFace` (line 3391). -/
def stepUpHitVerticalFace (e : StepUpEnv) : Prop :=
  ¬isWithinEdgeToleranceEx e.inHitLocation (stepUpCapsuleDown e) e.pawnRadius
    e.inHitImpactPoint

/-- `PawnFloorPoint` after the grounded adjustment (lines 3381-3400). -/
def stepUpPawnFloorPoint (e : StepUpEnv) : Vec3 :=
  if stepUpGrounded e then
    (if e.currentFloorLineTrace = false ∧ ¬stepUpHitVerticalFace e then
      e.currentFloorImpactPoint
    else stepUpBottomPoint e + e.currentFloorDist • stepUpCapsuleDown e)
  else stepUpBottomPoint e

/-- `StepSideZ = -1 * (InHit.ImpactNormal | GravDir)`. -/
def stepUpStepSideZ (e : StepUpEnv) : ℝ := -1 * dot e.inHitImpactNormal e.gravDir

/-- `DeltaZ = (PawnFloorPoint - Hit.ImpactPoint) | CapsuleDown` for the
down-sweep hit (line 3485). -/
def stepUpDeltaZ (e : StepUpEnv) : ℝ :=
  dot (stepUpPawnFloorPoint e - e.downHit.impactPoint) (stepUpCapsuleDown e)

/-- Return value and final component location of `StepUp`. -/
structure StepUpResult where
  bResult : Bool
  location : Vec3

/-- The validation block run on a valid blocking down-sweep hit
(lines 3482-3551). -/
def stepUpDownChecks (e : StepUpEnv) : StepUpResult :=
  if stepUpDeltaZ e > e.maxStepHeight then ⟨false, e.oldLocation⟩
  else if e.downHitWalkable = false ∧ dot e.delta e.downHit.impactNormal < 0 then
    ⟨false, e.oldLocation⟩
  else if e.downHitWalkable = false ∧
      dot (e.oldLocation - e.downHit.location) (stepUpCapsuleDown e) > 0 then
    ⟨false, e.oldLocation⟩
  else if ¬isWithinEdgeToleranceEx e.downHit.location (stepUpCapsuleDown e)
      e.pawnRadius e.downHit.impactPoint then ⟨false, e.oldLocation⟩
  else if stepUpDeltaZ e > 0 ∧ e.canStepUpDownHit = false then
    ⟨false, e.oldLocation⟩
  else if e.wantsStepDownResult = true ∧
      dot (e.oldLocation - e.downHit.location) (stepUpCapsuleDown e) > 0 ∧
      e.floorResultBlockingHit = false ∧ stepUpStepSideZ e < MAX_STEP_SIDE_Z then
    ⟨false, e.oldLocation⟩
  else ⟨true, e.downEndLocation⟩

/-- The down sweep and its validation (lines 3471-3551). -/
def stepUpDescend (e : StepUpEnv) : StepUpResult :=
  if e.downHit.bStartPenetrating = true then ⟨false, e.oldLocation⟩
  else if hitIsValidBlocking e.downHit = true then stepUpDownChecks e
  else ⟨true, e.downEndLocation⟩

/-- The forward sweep and its handling (lines 3424-3469), then the
descent. -/
def stepUpForward (e : StepUpEnv) : StepUpResult :=
  if e.forwardHit.bBlockingHit = true ∧ e.forwardHit.bStartPenetrating = true then
    ⟨false, e.oldLocation⟩
  else if e.forwardHit.bBlockingHit = true ∧ e.isFallingAfterForwardImpact = true then
    ⟨true, e.forwardEndLocation⟩
  else if e.forwardHit.bBlockingHit = true ∧ e.isFallingAfterSlide = true then
    ⟨false, e.oldLocation⟩
  else if e.forwardHit.bBlockingHit = true ∧ e.forwardHit.time = 0 ∧
      e.slideAmount = 0 then ⟨false, e.oldLocation⟩
  else stepUpDescend e

/-- The scoped part of the attempt (from the upward sweep on); every
rejection is a `RevertMove` back to `oldLocation`. -/
def stepUpScoped (e : StepUpEnv) : StepUpResult :=
  if e.sweepUpHit.bStartPenetrating = true then ⟨false, e.oldLocation⟩
  else stepUpForward e

/-- `UNinjaCharacterMovementComponent::StepUp`. -/
def stepUp (e : StepUpEnv) : StepUpResult :=
  if e.canStepUpInHit = false ∨ e.maxStepHeight ≤ 0 then ⟨false, e.oldLocation⟩
  else if dot (e.inHitImpactPoint - stepUpBottomPoint e) (stepUpSegment e) /
      sizeSquared (stepUpSegment e) > 1 then ⟨false, e.oldLocation⟩
  else if dot (e.inHitImpactPoint - stepUpInitialFloorBase e)
      (stepUpTopPoint e - stepUpInitialFloorBase e) ≤ 0 then ⟨false, e.oldLocation⟩
  else stepUpScoped e

theorem stepUpDownChecks_revert (e : StepUpEnv)
    (h : (stepUpDownChecks e).bResult = false) :
    (stepUpDownChecks e).location = e.oldLocation := by
  unfold stepUpDownChecks at h ⊢
  split_ifs at h ⊢ <;> simp_all

theorem stepUpDescend_revert (e : StepUpEnv)
    (h : (stepUpDescend e).bResult = false) :
    (stepUpDescend e).location = e.oldLocation := by
  unfold stepUpDescend at h ⊢
  split_ifs at h ⊢ <;> first
    | rfl
    | exact stepUpDownChecks_revert e h

theorem stepUpForward_revert (e : StepUpEnv)
    (h : (stepUpForward e).bResult = false) :
    (stepUpForward e).location = e.oldLocation := by
  unfold stepUpForward at h ⊢
  split_ifs at h ⊢ <;> first
    | rfl
    | exact stepUpDescend_revert e h

theorem stepUpScoped_revert (e : StepUpEnv)
    (h : (stepUpScoped e).bResult = false) :
    (stepUpScoped e).location = e.oldLocation := by
  unfold stepUpScoped at h ⊢
  split_ifs at h ⊢ <;> first
    | rfl
    | exact stepUpForward_revert e h

/-- The down sweep was actually executed: the attempt did not end at the
early `return true` taken when the forward impact switched the mode to
falling. -/
def stepUpDownExecuted (e : StepUpEnv) : Prop :=
  ¬(e.forwardHit.bBlockingHit = true ∧ e.forwardHit.bStartPenetrating = false ∧
    e.isFallingAfterForwardImpact = true)

/-- C7. `StepUp` is an atomic, revertible attempt: whenever it returns
false the component location is exactly the location before the call; and
it does return false whenever the upward sweep starts in penetration, the
forward sweep blocks while starting in penetration, the executed downward
sweep starts in penetration, the net height gained over the initial floor
point exceeds `MaxStepHeight`, the final surface is unwalkable and either
opposes the move direction or would leave the agent higher than its start,
or the final landing point lies outside edge tolerance. -/
theorem stepUp_spec (e : StepUpEnv) :
    ((stepUp e).bResult = false → (stepUp e).location = e.oldLocation) ∧
    (e.sweepUpHit.bStartPenetrating = true → (stepUp e).bResult = false) ∧
    (e.forwardHit.bBlockingHit = true → e.forwardHit.bStartPenetrating = true →
      (stepUp e).bResult = false) ∧
    (stepUpDownExecuted e → e.downHit.bStartPenetrating = true →
      (stepUp e).bResult = false) ∧
    (stepUpDownExecuted e → hitIsValidBlocking e.downHit = true →
      stepUpDeltaZ e > e.maxStepHeight → (stepUp e).bResult = false) ∧
    (stepUpDownExecuted e → hitIsValidBlocking e.downHit = true →
      e.downHitWalkable = false →
      (dot e.delta e.downHit.impactNormal < 0 ∨
        dot (e.oldLocation - e.downHit.location) (stepUpCapsuleDown e) > 0) →
      (stepUp e).bResult = false) ∧
    (stepUpDownExecuted e → hitIsValidBlocking e.downHit = true →
      ¬isWithinEdgeToleranceEx e.downHit.location (stepUpCapsuleDown e)
        e.pawnRadius e.downHit.impactPoint →
      (stepUp e).bResult = false) := by
  have hdescend_pen : e.downHit.bStartPenetrating = true →
      (stepUpDescend e).bResult = false := by
    intro hpen
    unfold stepUpDescend
    rw [if_pos hpen]
  have hdescend_checks : hitIsValidBlocking e.downHit = true →
      (stepUpDownChecks e).bResult = false → (stepUpDescend e).bResult = false := by
    intro hvalid hchecks
    unfold stepUpDescend
    have hpen : ¬e.downHit.bStartPenetrating = true := by
      intro hq
      unfold hitIsValidBlocking at hvalid
      rw [hq] at hvalid
      simp at hvalid
    rw [if_neg hpen, if_pos hvalid]
    exact hchecks
  have hforward : stepUpDownExecuted e → (stepUpDescend e).bResult = false →
      (stepUpForward e).bResult = false := by
    intro hexec hdesc
    unfold stepUpDownExecuted at hexec
    unfold stepUpForward
    split_ifs with h1 h2 h3 h4
    · rfl
    · exact absurd ⟨h2.1, by simpa using fun hc => h1 ⟨h2.1, hc⟩, h2.2⟩ hexec
    · rfl
    · rfl
    · exact hdesc
  have hscoped : (stepUpForward e).bResult = false →
      (stepUpScoped e).bResult = false := by
    intro hfwd
    unfold stepUpScoped
    split_ifs
    · rfl
    · exact hfwd
  have htop : (stepUpScoped e).bResult = false → (stepUp e).bResult = false := by
    intro hsc
    unfold stepUp
    split_ifs <;> first | rfl | exact hsc
  refine ⟨?_, ?_, ?_, ?_, ?_, ?_, ?_⟩
  · intro h
    unfold stepUp at h ⊢
    split_ifs at h ⊢ <;> first
      | rfl
      | exact stepUpScoped_revert e h
  · intro hpen
    apply htop
    unfold stepUpScoped
    rw [if_pos hpen]
  · intro hblock hpen
    apply htop
    apply hscoped
    unfold stepUpForward
    rw [if_pos ⟨hblock, hpen⟩]
  · intro hexec hpen
    exact htop (hscoped (hforward hexec (hdescend_pen hpen)))
  · intro hexec hvalid hhigh
    refine htop (hscoped (hforward hexec (hdescend_checks hvalid ?_)))
    unfold stepUpDownChecks
    rw [if_pos hhigh]
  · intro hexec hvalid hunwalk hreason
    refine htop (hscoped (hforward hexec (hdescend_checks hvalid ?_)))
    unfold stepUpDownChecks
    split_ifs with h1 h2 h3 <;> try rfl
    rcases hreason with hr | hr
    · exact absurd ⟨hunwalk, hr⟩ h2
    · exact absurd ⟨hunwalk, hr⟩ h3
  · intro hexec hvalid hedge
    refine htop (hscoped (hforward hexec (hdescend_checks hvalid ?_)))
    unfold stepUpDownChecks
    split_ifs with h1 h2 h3 <;> rfl

/-- A concrete step-up attempt whose upward sweep starts in penetration. -/
def stepUpEnvC7 : StepUpEnv :=
  { canStepUpInHit := true
    maxStepHeight := 45
    oldLocation := ⟨100, 200, 300⟩
    pawnRadius := 34
    pawnHalfHeight := 88
    capsuleUp := ⟨0, 0, 1⟩
    gravDir := ⟨0, 0, -1⟩
    delta := ⟨10, 0, 0⟩
    inHitImpactPoint := ⟨120, 200, 250⟩
    inHitImpactNormal := ⟨-1, 0, 0⟩
    inHitLocation := ⟨100, 200, 300⟩
    isMovingOnGround := false
    currentFloorWalkable := false
    currentFloorDist := 0
    currentFloorLineDist := 0
    currentFloorLineTrace := false
    currentFloorImpactPoint := ⟨0, 0, 0⟩
    sweepUpHit := ⟨true, true, 0, ⟨100, 200, 300⟩, ⟨100, 200, 345⟩, ⟨0, 0, -1⟩⟩
    forwardHit := ⟨false, false, 1, ⟨0, 0, 0⟩, ⟨0, 0, 0⟩, ⟨0, 0, 0⟩⟩
    forwardEndLocation := ⟨110, 200, 345⟩
    isFallingAfterForwardImpact := false
    slideAmount := 0
    isFallingAfterSlide := false
    downHit := ⟨false, false, 1, ⟨0, 0, 0⟩, ⟨0, 0, 0⟩, ⟨0, 0, 0⟩⟩
    downEndLocation := ⟨110, 200, 300⟩
    downHitWalkable := true
    canStepUpDownHit := true
    wantsStepDownResult := false
    floorResultBlockingHit := false }

/-- Witness for C7: the penetrating upward sweep makes the concrete attempt
fail, and the agent's location is exactly the location before the call. -/
theorem stepUp_spec_witness :
    (stepUp stepUpEnvC7).bResult = false ∧
    (stepUp stepUpEnvC7).location = stepUpEnvC7.oldLocation := by
  have hfail := (stepUp_spec stepUpEnvC7).2.1 rfl
  exact ⟨hfail, (stepUp_spec stepUpEnvC7).1 hfail⟩
